import Mathlib

/-!
Shallow embedding of the glass-refraction data generator
(`src/generator.py`, `src/config.py`).

Rendering is modelled as a display list: every drawing call made by a
render function appends one primitive to a list, in the order the code
issues the calls.  Coordinates and angles are real numbers; colors are
RGB triples of naturals.  A text primitive records the numeric angle (in
degrees) that the formatted label displays, since string formatting of a
float carries no further geometric content.
-/

namespace Refraction

noncomputable section

open Real

/-- A point on the canvas (x, y). -/
abbrev Pt := ℝ × ℝ

/-- An RGB color triple. -/
abbrev Color := ℕ × ℕ × ℕ

/-- One drawing primitive recorded by a render call.
`arc` stores the bounding box and the two angle arguments in the order
the call passes them (start parameter first). -/
inductive Prim where
  | line (p q : Pt) (color : Color) (width : ℕ)
  | arc (bboxLo bboxHi : Pt) (startParam stopParam : ℝ) (color : Color) (width : ℕ)
  | text (pos : Pt) (angleDeg : ℝ) (color : Color)

/-- Task configuration (`src/config.py`, `TaskConfig`), with the declared
field defaults. -/
structure TaskConfig where
  domain : String := "glass_refraction"
  image_size : ℕ × ℕ := (512, 512)
  generate_videos : Bool := true
  video_fps : ℕ := 10
  n_glass_min : ℝ := 1.3
  n_glass_max : ℝ := 2.0
  theta_min : ℝ := 5.0
  theta_max : ℝ := 80.0
  n_air : ℝ := 1.0

/-- The dictionary returned by `_generate_task_data`. -/
structure TaskData where
  n_glass : ℝ
  n_air : ℝ
  theta_incident_degrees : ℝ
  theta_incident_radians : ℝ
  theta_refracted_degrees : ℝ
  theta_refracted_radians : ℝ
  type : String

/-- `math.radians`. -/
def radians (d : ℝ) : ℝ := d * π / 180

/-- `math.degrees`. -/
def degrees (r : ℝ) : ℝ := r * 180 / π

/-- The Snell ratio computed in `_generate_task_data` before the clamp:
`sin_theta_refracted = (n_air * math.sin(theta_radians)) / n_glass`. -/
def sin_theta_refracted (n_air n_glass theta_radians : ℝ) : ℝ :=
  (n_air * Real.sin theta_radians) / n_glass

/-- The refraction computation of `_generate_task_data` (the spec's
`refract(theta_incident_rad, n_from, n_to)`): Snell ratio, clamp above 1,
inverse sine. -/
def refract (theta_incident_rad n_from n_to : ℝ) : ℝ :=
  let sin_t := sin_theta_refracted n_from n_to theta_incident_rad
  let sin_t := if sin_t > 1 then 1 else sin_t
  Real.arcsin sin_t

/-- `_generate_task_data`, with the two `random.uniform` draws passed in
as the sampled values `n_glass` and `theta_degrees`. -/
def generateTaskData (cfg : TaskConfig) (n_glass theta_degrees : ℝ) : TaskData :=
  let theta_radians := radians theta_degrees
  let theta_refracted_radians := refract theta_radians cfg.n_air n_glass
  { n_glass := n_glass
    n_air := cfg.n_air
    theta_incident_degrees := theta_degrees
    theta_incident_radians := theta_radians
    theta_refracted_degrees := degrees theta_refracted_radians
    theta_refracted_radians := theta_refracted_radians
    type := "default" }

/-- The segment direction angle `atan2(dy, dx)` computed by `_draw_arrow`,
embedded as the argument of the complex number `dx + dy·i`. -/
def segAngle (s e : Pt) : ℝ := Complex.arg ⟨e.1 - s.1, e.2 - s.2⟩

/-- The first arrowhead point of `_draw_arrow`:
`end - arrow_length * (cos(angle - arrow_angle), sin(angle - arrow_angle))`
with `arrow_length = 15` and `arrow_angle = π/6`. -/
def arrowPoint1 (s e : Pt) : Pt :=
  (e.1 - 15 * Real.cos (segAngle s e - π / 6),
   e.2 - 15 * Real.sin (segAngle s e - π / 6))

/-- The second arrowhead point of `_draw_arrow`, rotated the other way. -/
def arrowPoint2 (s e : Pt) : Pt :=
  (e.1 - 15 * Real.cos (segAngle s e + π / 6),
   e.2 - 15 * Real.sin (segAngle s e + π / 6))

/-- `_draw_arrow`: the segment, then the two arrowhead strokes from the
endpoint. -/
def drawArrow (s e : Pt) (color : Color) (width : ℕ) : List Prim :=
  [Prim.line s e color width,
   Prim.line e (arrowPoint1 s e) color width,
   Prim.line e (arrowPoint2 s e) color width]

/-- The glass-surface line drawn at the interface. -/
def glassLine (width : ℕ) (glass_y : ℝ) : Prim :=
  Prim.line (0, glass_y) ((width : ℝ), glass_y) (0, 0, 0) 3

/-- The hatch-line loop below the interface: `width // 8` diagonal ticks
of length 15 at 45°. -/
def hatchLines (width : ℕ) (glass_y : ℝ) : List Prim :=
  (List.range (width / 8)).map fun i =>
    let x1 : ℝ := (i : ℝ) * 8
    let y1 : ℝ := glass_y + 5
    Prim.line (x1, y1)
      (x1 + 15 * Real.cos (radians 45), y1 + 15 * Real.sin (radians 45))
      (100, 100, 100) 1

/-- The normal line through the interface point. -/
def normalLine (center_x glass_y : ℝ) : Prim :=
  Prim.line (center_x, glass_y - 30) (center_x, glass_y + 30) (150, 150, 150) 1

/-- The angle arc drawn between the normal and the incident ray: the code
calls `draw.arc` with start parameter `-90 - degrees(theta)` and stop
parameter `-90`. -/
def angleArc (center_x glass_y theta : ℝ) : Prim :=
  Prim.arc (center_x - 40, glass_y - 40) (center_x + 40, glass_y + 40)
    (-90 - degrees theta) (-90) (0, 0, 0) 2

/-- The angle label placed next to the arc. -/
def angleLabel (center_x glass_y theta_degrees : ℝ) : Prim :=
  Prim.text (center_x + 40 + 10, glass_y - 40) theta_degrees (0, 0, 0)

/-- The boundary-clipping block (inlined in `_render_final_state` and in
the transition loop; the spec's `clip_to_boundary`): try the bottom edge,
then the right edge, then the left edge. -/
def clip_to_boundary (center_x glass_y : ℝ) (width height : ℕ) (theta : ℝ) : Pt :=
  let distance_to_bottom := (height : ℝ) - glass_y
  let x_at_bottom := center_x + distance_to_bottom * Real.tan theta
  if 0 ≤ x_at_bottom ∧ x_at_bottom ≤ (width : ℝ) then
    (x_at_bottom, (height : ℝ))
  else if x_at_bottom > (width : ℝ) then
    ((width : ℝ), glass_y + ((width : ℝ) - center_x) / Real.tan theta)
  else
    (0, glass_y + center_x / Real.tan theta)

/-- `center_x = width // 2`, as a real coordinate. -/
def centerX (cfg : TaskConfig) : ℝ := (cfg.image_size.1 / 2 : ℕ)

/-- `center_y = height // 2`, as a real coordinate (also `glass_y`). -/
def centerY (cfg : TaskConfig) : ℝ := (cfg.image_size.2 / 2 : ℕ)

/-- The incident-ray start x-coordinate computed by every renderer:
`center_x - (center_y - 50) * tan(theta)`. -/
def rayStartX (cfg : TaskConfig) (theta : ℝ) : ℝ :=
  centerX cfg - (centerY cfg - 50) * Real.tan theta

/-- The boundary-clipped refracted-ray endpoint used by the final render
and by the transition loop. -/
def finalEnd (cfg : TaskConfig) (td : TaskData) : Pt :=
  clip_to_boundary (centerX cfg) (centerY cfg) cfg.image_size.1 cfg.image_size.2
    td.theta_refracted_radians

/-- `_render_initial_state`: interface, hatching, incident arrow, normal,
angle arc, angle label — in the order the code draws them. -/
def renderInitialState (cfg : TaskConfig) (td : TaskData) : List Prim :=
  let width := cfg.image_size.1
  let glass_y := centerY cfg
  glassLine width glass_y ::
    (hatchLines width glass_y
      ++ drawArrow (rayStartX cfg td.theta_incident_radians, 50)
          (centerX cfg, glass_y) (0, 0, 255) 3
      ++ [normalLine (centerX cfg) glass_y,
          angleArc (centerX cfg) glass_y td.theta_incident_radians,
          angleLabel (centerX cfg) glass_y td.theta_incident_degrees])

/-- `_render_final_state`: interface, hatching, incident arrow, refracted
arrow to the boundary-clipped endpoint, normal. -/
def renderFinalState (cfg : TaskConfig) (td : TaskData) : List Prim :=
  let width := cfg.image_size.1
  let glass_y := centerY cfg
  glassLine width glass_y ::
    (hatchLines width glass_y
      ++ drawArrow (rayStartX cfg td.theta_incident_radians, 50)
          (centerX cfg, glass_y) (0, 0, 255) 3
      ++ drawArrow (centerX cfg, glass_y) (finalEnd cfg td) (255, 0, 0) 3
      ++ [normalLine (centerX cfg) glass_y])

/-- The per-frame progress of the transition loop:
`i / (transition_frames - 1)` when `transition_frames > 1`, else `1.0`. -/
def transitionProgress (transition_frames i : ℕ) : ℝ :=
  if transition_frames > 1 then (i : ℝ) / ((transition_frames : ℝ) - 1) else 1

/-- The body of the transition loop in `_create_refraction_animation_frames`:
interface, hatching, normal, incident arrow, the partial refracted arrow
when `progress > 0`, and the angle arc and label when `progress < 0.3`. -/
def transitionFrame (cfg : TaskConfig) (td : TaskData) (transition_frames i : ℕ) : List Prim :=
  let width := cfg.image_size.1
  let glass_y := centerY cfg
  let progress := transitionProgress transition_frames i
  glassLine width glass_y ::
    (hatchLines width glass_y
      ++ [normalLine (centerX cfg) glass_y]
      ++ drawArrow (rayStartX cfg td.theta_incident_radians, 50)
          (centerX cfg, glass_y) (0, 0, 255) 3
      ++ (if progress > 0 then
            let current_end_x := centerX cfg + ((finalEnd cfg td).1 - centerX cfg) * progress
            let current_end_y := glass_y + ((finalEnd cfg td).2 - glass_y) * progress
            drawArrow (centerX cfg, glass_y) (current_end_x, current_end_y) (255, 0, 0) 3
          else [])
      ++ (if progress < 0.3 then
            [angleArc (centerX cfg) glass_y td.theta_incident_radians,
             angleLabel (centerX cfg) glass_y td.theta_incident_degrees]
          else []))

/-- `_create_refraction_animation_frames`: `hold_frames` copies of the
initial frame, the transition frames in loop order, `hold_frames` copies
of the final frame. -/
def createRefractionAnimationFrames (cfg : TaskConfig) (td : TaskData)
    (hold_frames transition_frames : ℕ) : List (List Prim) :=
  List.replicate hold_frames (renderInitialState cfg td)
    ++ (List.range transition_frames).map (transitionFrame cfg td transition_frames)
    ++ List.replicate hold_frames (renderFinalState cfg td)

/-- The task pair assembled by `generate_task_pair`. -/
structure TaskPair where
  task_id : String
  domain : String
  prompt : String
  first_image : List Prim
  final_image : List Prim
  ground_truth_video : Option String

/-- `_generate_video`: hand the animation frames (default hold 5,
transitions 25) to the external encoder; a falsy result becomes `none`.
The encoder is the out-of-scope external collaborator, passed in as a
function from the frame list to an optional file path. -/
def generateVideo (encoder : List (List Prim) → Option String)
    (cfg : TaskConfig) (td : TaskData) : Option String :=
  let frames := createRefractionAnimationFrames cfg td 5 25
  encoder frames

/-- `generate_task_pair`: generate the task data (the random draws passed
in as `n_glass` and `theta_degrees`), render both stills, optionally run
the encoder, and select a prompt (`get_prompt` abstracted as `promptFor`,
applied to the task type and data). -/
def generateTaskPair (cfg : TaskConfig)
    (video_generator : Option (List (List Prim) → Option String))
    (task_id : String) (n_glass theta_degrees : ℝ)
    (promptFor : String → TaskData → String) : TaskPair :=
  let task_data := generateTaskData cfg n_glass theta_degrees
  let first_image := renderInitialState cfg task_data
  let final_image := renderFinalState cfg task_data
  let video_path : Option String :=
    if cfg.generate_videos then
      match video_generator with
      | some vg => generateVideo vg cfg task_data
      | none => none
    else none
  { task_id := task_id
    domain := cfg.domain
    prompt := promptFor task_data.type task_data
    first_image := first_image
    final_image := final_image
    ground_truth_video := video_path }

/-- Whether a primitive is an angle arc. -/
def isArcPrim : Prim → Bool
  | .arc .. => true
  | _ => false

/-- Whether a primitive is a text label. -/
def isTextPrim : Prim → Bool
  | .text .. => true
  | _ => false

/-- Whether a primitive is a line drawn in the refracted ray's color. -/
def isRedLine : Prim → Bool
  | .line _ _ c _ => c = (255, 0, 0)
  | _ => false

/-- Dot product on canvas vectors. -/
def dot2 (u v : Pt) : ℝ := u.1 * v.1 + u.2 * v.2

/-- Euclidean length of a canvas vector. -/
def len2 (u : Pt) : ℝ := Real.sqrt (dot2 u u)

/-- The angle between two canvas vectors. -/
def angleBetween (u v : Pt) : ℝ :=
  Real.arccos (dot2 u v / (len2 u * len2 v))

/-- The default configuration, used for concrete instances. -/
def cfg0 : TaskConfig := {}

/-- A concrete sample: glass index 1.5, incident angle 30°. -/
def td0 : TaskData := generateTaskData cfg0 1.5 30

/-- C1, counterexample: the claim quantifies over every incident angle, but at
incident angle `-(π/6)` with indices `n_from = n_to = 1` the refraction
computation returns `arcsin (-1/2) < 0`, which is not in `[0, π/2]`. -/
theorem c1_counterexample : refract (-(π / 6)) 1 1 < 0 := by
  have h : sin_theta_refracted 1 1 (-(π / 6)) = -(1 / 2) := by
    rw [sin_theta_refracted, Real.sin_neg, Real.sin_pi_div_six]
    norm_num
  simp only [refract, h]
  rw [if_neg (by norm_num)]
  exact Real.arcsin_lt_zero.2 (by norm_num)

/-- C1, amended: for every incident angle whose sine is nonnegative (which
covers the configured domain) and indices `n_from > 0`, `n_to > 0`, the
refraction computation returns `arcsin (min 1 ((n_from * sin θ) / n_to))`,
never signals an error, and the result lies in `[0, π/2]`. -/
theorem c1_refract_spec (theta n_from n_to : ℝ)
    (hf : 0 < n_from) (ht : 0 < n_to) (hs : 0 ≤ Real.sin theta) :
    refract theta n_from n_to =
      Real.arcsin (min 1 ((n_from * Real.sin theta) / n_to)) ∧
    0 ≤ refract theta n_from n_to ∧ refract theta n_from n_to ≤ π / 2 := by
  have hst : 0 ≤ sin_theta_refracted n_from n_to theta :=
    div_nonneg (mul_nonneg hf.le hs) ht.le
  have hmin : (if sin_theta_refracted n_from n_to theta > 1 then (1 : ℝ)
      else sin_theta_refracted n_from n_to theta) =
      min 1 ((n_from * Real.sin theta) / n_to) := by
    rcases le_or_lt (sin_theta_refracted n_from n_to theta) 1 with h | h
    · rw [if_neg (not_lt.2 h), sin_theta_refracted, eq_comm]
      exact min_eq_right (by rw [sin_theta_refracted] at h; exact h)
    · rw [if_pos h, eq_comm]
      exact min_eq_left (by rw [sin_theta_refracted] at h; exact h.le)
  have heq : refract theta n_from n_to =
      Real.arcsin (min 1 ((n_from * Real.sin theta) / n_to)) := by
    simp only [refract]
    rw [hmin]
  refine ⟨heq, ?_, ?_⟩
  · rw [heq]
    exact Real.arcsin_nonneg.2 (le_min one_pos.le (by
      rw [sin_theta_refracted] at hst; exact hst))
  · rw [heq]
    exact Real.arcsin_le_pi_div_two _

/-- Witness for `c1_refract_spec` at incident angle 0 and unit indices. -/
theorem c1_refract_spec_witness :
    refract 0 1 1 = Real.arcsin (min 1 ((1 * Real.sin 0) / 1)) ∧
    0 ≤ refract 0 1 1 ∧ refract 0 1 1 ≤ π / 2 :=
  c1_refract_spec 0 1 1 (by norm_num) (by norm_num) (by simp)

/-- C7: for every `0 < n_air ≤ n_glass` and every incident angle in the
configured range [5°, 80°], the pre-clamp Snell ratio is at most 1, the clamp
branch (`sin_theta_refracted > 1.0`) is unreachable, and the refraction
computation reduces to the unclamped inverse sine. -/
theorem c7_clamp_unreachable (n_air n_glass theta_deg : ℝ)
    (h0 : 0 < n_air) (hle : n_air ≤ n_glass)
    (h5 : 5 ≤ theta_deg) (h80 : theta_deg ≤ 80) :
    sin_theta_refracted n_air n_glass (radians theta_deg) ≤ 1 ∧
    ¬ (sin_theta_refracted n_air n_glass (radians theta_deg) > 1) ∧
    refract (radians theta_deg) n_air n_glass =
      Real.arcsin (sin_theta_refracted n_air n_glass (radians theta_deg)) := by
  have hg : 0 < n_glass := h0.trans_le hle
  have hnum : n_air * Real.sin (radians theta_deg) ≤ n_glass :=
    calc n_air * Real.sin (radians theta_deg) ≤ n_air * 1 :=
          mul_le_mul_of_nonneg_left (Real.sin_le_one _) h0.le
      _ = n_air := mul_one _
      _ ≤ n_glass := hle
  have h1 : sin_theta_refracted n_air n_glass (radians theta_deg) ≤ 1 := by
    rw [sin_theta_refracted, div_le_one hg]
    exact hnum
  refine ⟨h1, not_lt.2 h1, ?_⟩
  simp only [refract]
  rw [if_neg (not_lt.2 h1)]

/-- Witness for `c7_clamp_unreachable` at `n_air = 1`, `n_glass = 1.5`, 30°. -/
theorem c7_clamp_unreachable_witness :
    sin_theta_refracted 1 1.5 (radians 30) ≤ 1 ∧
    ¬ (sin_theta_refracted 1 1.5 (radians 30) > 1) ∧
    refract (radians 30) 1 1.5 =
      Real.arcsin (sin_theta_refracted 1 1.5 (radians 30)) :=
  c7_clamp_unreachable 1 1.5 30 (by norm_num) (by norm_num) (by norm_num)
    (by norm_num)

/-- C4: for every configuration, task data, `hold_frames ≥ 0` and
`transition_frames ≥ 1`, the animation has exactly
`2 * hold_frames + transition_frames` frames, ordered as `hold_frames` copies
of the initial frame, then the transition frames in loop order, then
`hold_frames` copies of the final frame. -/
theorem c4_animation_length (cfg : TaskConfig) (td : TaskData)
    (hold_frames transition_frames : ℕ) (ht : 1 ≤ transition_frames) :
    (createRefractionAnimationFrames cfg td hold_frames transition_frames).length =
      2 * hold_frames + transition_frames ∧
    (∀ i, i < hold_frames →
      (createRefractionAnimationFrames cfg td hold_frames transition_frames)[i]? =
        some (renderInitialState cfg td)) ∧
    (∀ i, i < transition_frames →
      (createRefractionAnimationFrames cfg td hold_frames
          transition_frames)[hold_frames + i]? =
        some (transitionFrame cfg td transition_frames i)) ∧
    (∀ i, i < hold_frames →
      (createRefractionAnimationFrames cfg td hold_frames
          transition_frames)[hold_frames + transition_frames + i]? =
        some (renderFinalState cfg td)) := by
  refine ⟨?_, ?_, ?_, ?_⟩
  · simp [createRefractionAnimationFrames]
    ring
  · intro i hi
    have h1 : i < hold_frames + transition_frames := by omega
    simp [createRefractionAnimationFrames, List.getElem?_append,
      List.getElem?_replicate, hi, h1]
  · intro i hi
    have h1 : hold_frames + i < hold_frames + transition_frames := by omega
    have h2 : ¬ hold_frames + i < hold_frames := by omega
    simp [createRefractionAnimationFrames, List.getElem?_append,
      List.getElem?_replicate, h1, h2, hi]
  · intro i hi
    have h1 : ¬ hold_frames + transition_frames + i < hold_frames := by omega
    have h2 : ¬ hold_frames + transition_frames + i - hold_frames <
        transition_frames := by omega
    have h3 : hold_frames + transition_frames + i - hold_frames -
        transition_frames = i := by omega
    simp [createRefractionAnimationFrames, List.getElem?_append,
      List.getElem?_replicate, h1, h2, h3, hi]

/-- C5: in transition frame `i`, with progress `i/(transitions-1)` (or 1 when
`transitions = 1`), the angle arc and the angle label are each drawn if and
only if the progress is strictly below 0.3 — the threshold is exact. -/
theorem c5_label_threshold (cfg : TaskConfig) (td : TaskData)
    (transition_frames i : ℕ) (hi : i < transition_frames) :
    ((∃ p ∈ transitionFrame cfg td transition_frames i, isArcPrim p = true) ↔
      transitionProgress transition_frames i < 0.3) ∧
    ((∃ p ∈ transitionFrame cfg td transition_frames i, isTextPrim p = true) ↔
      transitionProgress transition_frames i < 0.3) := by
  constructor
  · constructor
    · rintro ⟨p, hp, hval⟩
      by_contra h3
      by_cases h0 : transitionProgress transition_frames i > 0 <;>
        cases p <;>
          simp [transitionFrame, glassLine, hatchLines, normalLine, drawArrow,
            angleArc, angleLabel, isArcPrim, h3, h0] at hp hval
    · intro h3
      refine ⟨angleArc (centerX cfg) (centerY cfg) td.theta_incident_radians,
        ?_, rfl⟩
      simp [transitionFrame, angleArc, h3]
  · constructor
    · rintro ⟨p, hp, hval⟩
      by_contra h3
      by_cases h0 : transitionProgress transition_frames i > 0 <;>
        cases p <;>
          simp [transitionFrame, glassLine, hatchLines, normalLine, drawArrow,
            angleArc, angleLabel, isTextPrim, h3, h0] at hp hval
    · intro h3
      refine ⟨angleLabel (centerX cfg) (centerY cfg) td.theta_incident_degrees,
        ?_, rfl⟩
      simp [transitionFrame, angleLabel, h3]

/-- Witness for `c5_label_threshold` at the default transition count, frame 0. -/
theorem c5_label_threshold_witness :
    ((∃ p ∈ transitionFrame cfg0 td0 25 0, isArcPrim p = true) ↔
      transitionProgress 25 0 < 0.3) ∧
    ((∃ p ∈ transitionFrame cfg0 td0 25 0, isTextPrim p = true) ↔
      transitionProgress 25 0 < 0.3) :=
  c5_label_threshold cfg0 td0 25 0 (by norm_num)

/-- C6, counterexample: the claim says every transition frame renders a
partial refracted ray, but the code draws it only when `progress > 0`:
transition frame 0 of the default 25-frame transition contains no primitive
in the refracted ray's color at all. -/
theorem c6_counterexample :
    ¬ ∃ p ∈ transitionFrame cfg0 td0 25 0, isRedLine p = true := by
  have hp0 : transitionProgress 25 0 = 0 := by
    simp [transitionProgress]
  rintro ⟨p, hp, hval⟩
  cases p with
  | line a b c w =>
      simp only [isRedLine, decide_eq_true_eq] at hval
      subst hval
      norm_num [transitionFrame, glassLine, hatchLines, normalLine, drawArrow,
        angleArc, angleLabel, hp0] at hp
      rcases hp with h | h <;> exact Prim.noConfusion h
  | arc b1 b2 a1 a2 c w => simp [isRedLine] at hval
  | text pos deg c => simp [isRedLine] at hval

/-- C6, amended: every transition frame renders the fully drawn incident ray,
and every transition frame whose progress is strictly positive (all frames
except frame 0 when `transitions > 1`) also renders a partial refracted ray
whose endpoint is linearly interpolated between the interface center and the
boundary-clipped endpoint by the progress, keeping the refracted direction
fixed while only the length varies. -/
theorem c6_transition_ray (cfg : TaskConfig) (td : TaskData)
    (transition_frames i : ℕ) (hi : i < transition_frames) :
    Prim.line (rayStartX cfg td.theta_incident_radians, 50)
        (centerX cfg, centerY cfg) (0, 0, 255) 3 ∈
      transitionFrame cfg td transition_frames i ∧
    (0 < transitionProgress transition_frames i →
      Prim.line (centerX cfg, centerY cfg)
          (centerX cfg + ((finalEnd cfg td).1 - centerX cfg) *
              transitionProgress transition_frames i,
           centerY cfg + ((finalEnd cfg td).2 - centerY cfg) *
              transitionProgress transition_frames i)
          (255, 0, 0) 3 ∈
        transitionFrame cfg td transition_frames i) := by
  constructor
  · simp [transitionFrame, drawArrow]
  · intro hp
    simp [transitionFrame, drawArrow, hp]

/-- Witness for `c6_transition_ray` at the default transition count, frame 1
(whose progress 1/24 is positive, so both conclusions are exercised). -/
theorem c6_transition_ray_witness :
    (Prim.line (rayStartX cfg0 td0.theta_incident_radians, 50)
        (centerX cfg0, centerY cfg0) (0, 0, 255) 3 ∈
      transitionFrame cfg0 td0 25 1 ∧
    (0 < transitionProgress 25 1 →
      Prim.line (centerX cfg0, centerY cfg0)
          (centerX cfg0 + ((finalEnd cfg0 td0).1 - centerX cfg0) *
              transitionProgress 25 1,
           centerY cfg0 + ((finalEnd cfg0 td0).2 - centerY cfg0) *
              transitionProgress 25 1)
          (255, 0, 0) 3 ∈
        transitionFrame cfg0 td0 25 1)) ∧
    0 < transitionProgress 25 1 :=
  ⟨c6_transition_ray cfg0 td0 25 1 (by norm_num),
   by rw [transitionProgress, if_pos (by norm_num)]; norm_num⟩

/-- C9: when the video generator is absent, or the encoder reports failure on
the animation frames, task-pair generation still completes with both rendered
stills and the ground-truth video set to `none`. -/
theorem c9_encoder_failure :
    (∀ (cfg : TaskConfig) (task_id : String) (n_glass theta_deg : ℝ)
        (promptFor : String → TaskData → String),
      (generateTaskPair cfg none task_id n_glass theta_deg promptFor).first_image =
          renderInitialState cfg (generateTaskData cfg n_glass theta_deg) ∧
      (generateTaskPair cfg none task_id n_glass theta_deg promptFor).final_image =
          renderFinalState cfg (generateTaskData cfg n_glass theta_deg) ∧
      (generateTaskPair cfg none task_id n_glass theta_deg
          promptFor).ground_truth_video = none) ∧
    (∀ (cfg : TaskConfig) (encoder : List (List Prim) → Option String)
        (task_id : String) (n_glass theta_deg : ℝ)
        (promptFor : String → TaskData → String),
      encoder (createRefractionAnimationFrames cfg
          (generateTaskData cfg n_glass theta_deg) 5 25) = none →
      (generateTaskPair cfg (some encoder) task_id n_glass theta_deg
          promptFor).first_image =
          renderInitialState cfg (generateTaskData cfg n_glass theta_deg) ∧
      (generateTaskPair cfg (some encoder) task_id n_glass theta_deg
          promptFor).final_image =
          renderFinalState cfg (generateTaskData cfg n_glass theta_deg) ∧
      (generateTaskPair cfg (some encoder) task_id n_glass theta_deg
          promptFor).ground_truth_video = none) := by
  constructor
  · intro cfg task_id n_glass theta_deg promptFor
    refine ⟨rfl, rfl, ?_⟩
    by_cases hgv : cfg.generate_videos <;>
      simp [generateTaskPair, hgv]
  · intro cfg encoder task_id n_glass theta_deg promptFor henc
    refine ⟨rfl, rfl, ?_⟩
    by_cases hgv : cfg.generate_videos <;>
      simp [generateTaskPair, generateVideo, hgv, henc]

/-- Witness for `c9_encoder_failure`: a concrete failing encoder. -/
theorem c9_encoder_failure_witness :
    (generateTaskPair cfg0 (some fun _ => none) "task_0" 1.5 30
        (fun _ _ => "prompt")).first_image =
      renderInitialState cfg0 (generateTaskData cfg0 1.5 30) ∧
    (generateTaskPair cfg0 (some fun _ => none) "task_0" 1.5 30
        (fun _ _ => "prompt")).final_image =
      renderFinalState cfg0 (generateTaskData cfg0 1.5 30) ∧
    (generateTaskPair cfg0 (some fun _ => none) "task_0" 1.5 30
        (fun _ _ => "prompt")).ground_truth_video = none :=
  c9_encoder_failure.2 cfg0 (fun _ => none) "task_0" 1.5 30 (fun _ _ => "prompt") rfl

/-- Witness for `c4_animation_length` at the default counts 5 and 25. -/
theorem c4_animation_length_witness :
    (createRefractionAnimationFrames cfg0 td0 5 25).length = 2 * 5 + 25 ∧
    (∀ i, i < 5 →
      (createRefractionAnimationFrames cfg0 td0 5 25)[i]? =
        some (renderInitialState cfg0 td0)) ∧
    (∀ i, i < 25 →
      (createRefractionAnimationFrames cfg0 td0 5 25)[5 + i]? =
        some (transitionFrame cfg0 td0 25 i)) ∧
    (∀ i, i < 5 →
      (createRefractionAnimationFrames cfg0 td0 5 25)[5 + 25 + i]? =
        some (renderFinalState cfg0 td0)) :=
  c4_animation_length cfg0 td0 5 25 (by norm_num)

/-- The reversed unit direction of a segment: opposite the direction angle
`atan2(dy, dx)`. -/
def reverseDir (s e : Pt) : Pt :=
  (-(Real.cos (segAngle s e)), -(Real.sin (segAngle s e)))

/-- A stroke vector of the form `-15·(cos β, sin β)` has length 15. -/
lemma len2_stroke (β : ℝ) :
    len2 (-(15 * Real.cos β), -(15 * Real.sin β)) = 15 := by
  rw [len2, dot2]
  have h : (-(15 * Real.cos β)) * (-(15 * Real.cos β)) +
      (-(15 * Real.sin β)) * (-(15 * Real.sin β)) = 15 ^ 2 := by
    have hsc := Real.sin_sq_add_cos_sq β
    nlinarith [hsc]
  rw [h]
  exact Real.sqrt_sq (by norm_num)

/-- A stroke vector at angle `β` makes the angle `π/6` with the reversed
unit direction at angle `α` whenever `cos (β - α) = cos (π/6)`. -/
lemma angleBetween_stroke (α β : ℝ) (h : Real.cos (β - α) = Real.cos (π / 6)) :
    angleBetween (-(15 * Real.cos β), -(15 * Real.sin β))
      (-(Real.cos α), -(Real.sin α)) = π / 6 := by
  have hd : dot2 (-(15 * Real.cos β), -(15 * Real.sin β))
      (-(Real.cos α), -(Real.sin α)) = 15 * Real.cos (π / 6) := by
    rw [dot2, ← h, Real.cos_sub]
    ring
  have hl2 : len2 (-(Real.cos α), -(Real.sin α)) = 1 := by
    rw [len2, dot2]
    have h1 : (-(Real.cos α)) * (-(Real.cos α)) +
        (-(Real.sin α)) * (-(Real.sin α)) = 1 := by
      have hsc := Real.sin_sq_add_cos_sq α
      nlinarith [hsc]
    rw [h1, Real.sqrt_one]
  rw [angleBetween, hd, hl2, len2_stroke]
  have hq : 15 * Real.cos (π / 6) / (15 * 1) = Real.cos (π / 6) := by ring
  rw [hq]
  exact Real.arccos_cos (by positivity) (by linarith [Real.pi_pos])

/-- C8: for every non-degenerate segment, `_draw_arrow` records the segment
and then two arrowhead strokes from the endpoint; each stroke has length
exactly 15 canvas units and forms exactly a 30° (π/6) angle with the
reversed segment direction — independent of the segment's length and of the
color and stroke-width arguments. -/
theorem c8_draw_arrow (s e : Pt) (color : Color) (width : ℕ) (hne : s ≠ e) :
    drawArrow s e color width =
      [Prim.line s e color width,
       Prim.line e (arrowPoint1 s e) color width,
       Prim.line e (arrowPoint2 s e) color width] ∧
    len2 (arrowPoint1 s e - e) = 15 ∧ len2 (arrowPoint2 s e - e) = 15 ∧
    angleBetween (arrowPoint1 s e - e) (reverseDir s e) = π / 6 ∧
    angleBetween (arrowPoint2 s e - e) (reverseDir s e) = π / 6 := by
  have hsub1 : arrowPoint1 s e - e =
      (-(15 * Real.cos (segAngle s e - π / 6)),
       -(15 * Real.sin (segAngle s e - π / 6))) := by
    rw [Prod.ext_iff]
    constructor <;> simp [arrowPoint1]
  have hsub2 : arrowPoint2 s e - e =
      (-(15 * Real.cos (segAngle s e + π / 6)),
       -(15 * Real.sin (segAngle s e + π / 6))) := by
    rw [Prod.ext_iff]
    constructor <;> simp [arrowPoint2]
  refine ⟨rfl, ?_, ?_, ?_, ?_⟩
  · rw [hsub1]
    exact len2_stroke _
  · rw [hsub2]
    exact len2_stroke _
  · rw [hsub1, reverseDir]
    apply angleBetween_stroke
    have h : segAngle s e - π / 6 - segAngle s e = -(π / 6) := by ring
    rw [h, Real.cos_neg]
  · rw [hsub2, reverseDir]
    apply angleBetween_stroke
    have h : segAngle s e + π / 6 - segAngle s e = π / 6 := by ring
    rw [h]

/-- Witness for `c8_draw_arrow` on a concrete horizontal segment. -/
theorem c8_draw_arrow_witness :
    drawArrow ((0 : ℝ), (0 : ℝ)) ((10 : ℝ), (0 : ℝ)) (0, 0, 0) 2 =
      [Prim.line ((0 : ℝ), (0 : ℝ)) ((10 : ℝ), (0 : ℝ)) (0, 0, 0) 2,
       Prim.line ((10 : ℝ), (0 : ℝ))
         (arrowPoint1 ((0 : ℝ), (0 : ℝ)) ((10 : ℝ), (0 : ℝ))) (0, 0, 0) 2,
       Prim.line ((10 : ℝ), (0 : ℝ))
         (arrowPoint2 ((0 : ℝ), (0 : ℝ)) ((10 : ℝ), (0 : ℝ))) (0, 0, 0) 2] ∧
    len2 (arrowPoint1 ((0 : ℝ), (0 : ℝ)) ((10 : ℝ), (0 : ℝ)) -
        ((10 : ℝ), (0 : ℝ))) = 15 ∧
    len2 (arrowPoint2 ((0 : ℝ), (0 : ℝ)) ((10 : ℝ), (0 : ℝ)) -
        ((10 : ℝ), (0 : ℝ))) = 15 ∧
    angleBetween (arrowPoint1 ((0 : ℝ), (0 : ℝ)) ((10 : ℝ), (0 : ℝ)) -
        ((10 : ℝ), (0 : ℝ)))
      (reverseDir ((0 : ℝ), (0 : ℝ)) ((10 : ℝ), (0 : ℝ))) = π / 6 ∧
    angleBetween (arrowPoint2 ((0 : ℝ), (0 : ℝ)) ((10 : ℝ), (0 : ℝ)) -
        ((10 : ℝ), (0 : ℝ)))
      (reverseDir ((0 : ℝ), (0 : ℝ)) ((10 : ℝ), (0 : ℝ))) = π / 6 :=
  c8_draw_arrow ((0 : ℝ), (0 : ℝ)) ((10 : ℝ), (0 : ℝ)) (0, 0, 0) 2
    (by simp [Prod.ext_iff])

/-- C3: for every angle in [0, π/2) and origin inside the canvas, the
boundary-clipping computation is well-defined — at θ = 0 the bottom-edge
branch applies with `x_at_bottom = center_x`, touching no division by a zero
tangent — and returns a point on one of the four canvas edges; the point is
on the ray from the origin (parameterized by vertical drop `d`, horizontal
offset `d·tan θ`), and at every earlier drop the ray is still inside the
canvas, so no edge is crossed earlier. -/
theorem c3_clip_correct (width height : ℕ) (center_x glass_y theta : ℝ)
    (hcx0 : 0 ≤ center_x) (hcxW : center_x ≤ (width : ℝ))
    (hgy0 : 0 ≤ glass_y) (hgyH : glass_y ≤ (height : ℝ))
    (ht0 : 0 ≤ theta) (ht2 : theta < π / 2) :
    ((clip_to_boundary center_x glass_y width height theta).1 = 0 ∨
     (clip_to_boundary center_x glass_y width height theta).1 = (width : ℝ) ∨
     (clip_to_boundary center_x glass_y width height theta).2 = 0 ∨
     (clip_to_boundary center_x glass_y width height theta).2 = (height : ℝ)) ∧
    (∃ d : ℝ, 0 ≤ d ∧
      clip_to_boundary center_x glass_y width height theta =
        (center_x + d * Real.tan theta, glass_y + d) ∧
      ∀ e, 0 ≤ e → e ≤ d →
        0 ≤ center_x + e * Real.tan theta ∧
        center_x + e * Real.tan theta ≤ (width : ℝ) ∧
        0 ≤ glass_y + e ∧ glass_y + e ≤ (height : ℝ)) ∧
    (theta = 0 →
      clip_to_boundary center_x glass_y width height theta =
        (center_x, (height : ℝ))) := by
  have htan : 0 ≤ Real.tan theta :=
    Real.tan_nonneg_of_nonneg_of_le_pi_div_two ht0 ht2.le
  have htb : 0 ≤ (height : ℝ) - glass_y := by linarith
  have hxb0 : 0 ≤ center_x + ((height : ℝ) - glass_y) * Real.tan theta :=
    add_nonneg hcx0 (mul_nonneg htb htan)
  by_cases hW : center_x + ((height : ℝ) - glass_y) * Real.tan theta ≤ (width : ℝ)
  · have hclip : clip_to_boundary center_x glass_y width height theta =
        (center_x + ((height : ℝ) - glass_y) * Real.tan theta, (height : ℝ)) := by
      simp only [clip_to_boundary]
      rw [if_pos ⟨hxb0, hW⟩]
    refine ⟨?_, ⟨(height : ℝ) - glass_y, htb, ?_, ?_⟩, ?_⟩
    · right; right; right
      rw [hclip]
    · rw [hclip, Prod.mk.injEq]
      constructor <;> ring
    · intro e he0 hed
      have hx : e * Real.tan theta ≤ ((height : ℝ) - glass_y) * Real.tan theta :=
        mul_le_mul_of_nonneg_right hed htan
      exact ⟨add_nonneg hcx0 (mul_nonneg he0 htan), by linarith, by linarith,
        by linarith⟩
    · intro h0
      rw [hclip, h0, Real.tan_zero, Prod.mk.injEq]
      constructor <;> ring
  · have hWgt : (width : ℝ) <
        center_x + ((height : ℝ) - glass_y) * Real.tan theta := not_le.1 hW
    have htpos : 0 < Real.tan theta := by
      rcases htan.lt_or_eq with h | h
      · exact h
      · exfalso
        rw [← h, mul_zero, add_zero] at hWgt
        linarith
    have hclip : clip_to_boundary center_x glass_y width height theta =
        ((width : ℝ), glass_y + ((width : ℝ) - center_x) / Real.tan theta) := by
      simp only [clip_to_boundary]
      rw [if_neg (fun hcon => absurd hcon.2 (not_le.2 hWgt)), if_pos hWgt]
    have hd0 : 0 ≤ ((width : ℝ) - center_x) / Real.tan theta :=
      div_nonneg (by linarith) htan
    have hdx : center_x + (((width : ℝ) - center_x) / Real.tan theta) *
        Real.tan theta = (width : ℝ) := by
      field_simp
    have hdtb : ((width : ℝ) - center_x) / Real.tan theta ≤
        (height : ℝ) - glass_y := by
      rw [div_le_iff htpos]
      nlinarith
    refine ⟨?_, ⟨((width : ℝ) - center_x) / Real.tan theta, hd0, ?_, ?_⟩, ?_⟩
    · right; left
      rw [hclip]
    · rw [hclip, Prod.mk.injEq]
      exact ⟨hdx.symm, rfl⟩
    · intro e he0 hed
      have hx : e * Real.tan theta ≤
          (((width : ℝ) - center_x) / Real.tan theta) * Real.tan theta :=
        mul_le_mul_of_nonneg_right hed htan
      exact ⟨add_nonneg hcx0 (mul_nonneg he0 htan), by linarith [hdx],
        by linarith, by linarith [hdtb]⟩
    · intro h0
      exfalso
      rw [h0, Real.tan_zero] at htpos
      exact lt_irrefl 0 htpos

/-- Witness for `c3_clip_correct` at the default canvas, centered origin,
angle 0 (the degenerate vertical ray). -/
theorem c3_clip_correct_witness :
    ((clip_to_boundary 256 256 512 512 0).1 = 0 ∨
     (clip_to_boundary 256 256 512 512 0).1 = ((512 : ℕ) : ℝ) ∨
     (clip_to_boundary 256 256 512 512 0).2 = 0 ∨
     (clip_to_boundary 256 256 512 512 0).2 = ((512 : ℕ) : ℝ)) ∧
    (∃ d : ℝ, 0 ≤ d ∧
      clip_to_boundary 256 256 512 512 0 = (256 + d * Real.tan 0, 256 + d) ∧
      ∀ e, 0 ≤ e → e ≤ d →
        0 ≤ 256 + e * Real.tan 0 ∧ 256 + e * Real.tan 0 ≤ ((512 : ℕ) : ℝ) ∧
        0 ≤ 256 + e ∧ 256 + e ≤ ((512 : ℕ) : ℝ)) ∧
    ((0 : ℝ) = 0 →
      clip_to_boundary 256 256 512 512 0 = (256, ((512 : ℕ) : ℝ))) :=
  c3_clip_correct 512 512 256 256 0 (by norm_num) (by norm_num) (by norm_num)
    (by norm_num) (by norm_num) (by linarith [Real.pi_pos])

/-- C2: for every sampled `n_glass ∈ [1.3, 2.0]` and `theta_incident ∈
[5°, 80°]` under the default configuration (`n_air = 1`), the generated
sample satisfies `sin(theta_refracted) = sin(theta_incident)/n_glass` within
1e-6 and `theta_refracted ≤ theta_incident`; and the sample `n_glass = 1.5`,
`theta_incident = 30°` yields `theta_refracted ≈ 19.47°` (within 0.5°). -/
theorem c2_sample_snell :
    (∀ n_glass theta_deg : ℝ, 1.3 ≤ n_glass → n_glass ≤ 2 →
      5 ≤ theta_deg → theta_deg ≤ 80 →
      |Real.sin (generateTaskData cfg0 n_glass theta_deg).theta_refracted_radians -
          Real.sin (generateTaskData cfg0 n_glass theta_deg).theta_incident_radians /
            n_glass| ≤ 1e-6 ∧
      (generateTaskData cfg0 n_glass theta_deg).theta_refracted_radians ≤
        (generateTaskData cfg0 n_glass theta_deg).theta_incident_radians) ∧
    |(generateTaskData cfg0 1.5 30).theta_refracted_degrees - 19.47| < 0.5 := by
  have hna : cfg0.n_air = 1 := by norm_num [cfg0]
  have hπ := Real.pi_pos
  constructor
  · intro n theta_deg h13 h20 h5 h80
    have hθ0 : 0 < radians theta_deg := by
      rw [radians]
      positivity
    have hθπ2 : radians theta_deg < π / 2 := by
      rw [radians]
      nlinarith [mul_le_mul_of_nonneg_right h80 hπ.le]
    have hθπ : radians theta_deg < π := by linarith
    have hsin0 : 0 ≤ Real.sin (radians theta_deg) :=
      Real.sin_nonneg_of_nonneg_of_le_pi hθ0.le hθπ.le
    have hsin1 : Real.sin (radians theta_deg) ≤ 1 :=
      Real.sin_le_one _
    have hng : (0 : ℝ) < n := by linarith
    have hs_eq : sin_theta_refracted cfg0.n_air n (radians theta_deg) =
        Real.sin (radians theta_deg) / n := by
      rw [sin_theta_refracted, hna, one_mul]
    have hsle : Real.sin (radians theta_deg) / n ≤ 1 := by
      rw [div_le_one hng]
      linarith
    have hs0 : 0 ≤ Real.sin (radians theta_deg) / n := div_nonneg hsin0 hng.le
    have hr0 : (generateTaskData cfg0 n theta_deg).theta_refracted_radians =
        refract (radians theta_deg) cfg0.n_air n := rfl
    have hi0 : (generateTaskData cfg0 n theta_deg).theta_incident_radians =
        radians theta_deg := rfl
    have hrefr : refract (radians theta_deg) cfg0.n_air n =
        Real.arcsin (Real.sin (radians theta_deg) / n) := by
      simp only [refract]
      rw [hs_eq, if_neg (not_lt.2 hsle)]
    constructor
    · rw [hr0, hi0, hrefr, Real.sin_arcsin (by linarith) hsle, sub_self,
        abs_zero]
      norm_num
    · rw [hr0, hi0, hrefr]
      have hmono : Real.sin (radians theta_deg) / n ≤
          Real.sin (radians theta_deg) := div_le_self hsin0 (by linarith)
      calc Real.arcsin (Real.sin (radians theta_deg) / n) ≤
          Real.arcsin (Real.sin (radians theta_deg)) :=
            Real.monotone_arcsin hmono
        _ = radians theta_deg := Real.arcsin_sin (by linarith) (by linarith)
  · have e1 : radians 30 = π / 6 := by
      rw [radians]
      ring
    have e2 : sin_theta_refracted cfg0.n_air 1.5 (radians 30) = 1 / 3 := by
      rw [sin_theta_refracted, e1, Real.sin_pi_div_six, hna]
      norm_num
    have e4 : (generateTaskData cfg0 1.5 30).theta_refracted_degrees =
        degrees (Real.arcsin (1 / 3)) := by
      have : (generateTaskData cfg0 1.5 30).theta_refracted_degrees =
          degrees (refract (radians 30) cfg0.n_air 1.5) := rfl
      rw [this]
      simp only [refract]
      rw [e2, if_neg (by norm_num)]
    have hA : (1 / 3 : ℝ) < Real.arcsin (1 / 3) := by
      have hs : Real.sin (1 / 3) < 1 / 3 := Real.sin_lt (by norm_num)
      have h1 : Real.arcsin (Real.sin (1 / 3)) = 1 / 3 :=
        Real.arcsin_sin (by linarith [Real.pi_gt_three])
          (by linarith [Real.pi_gt_three])
      have h2 : Real.arcsin (Real.sin (1 / 3)) < Real.arcsin (1 / 3) :=
        Real.strictMonoOn_arcsin
          (Set.mem_Icc.2 ⟨Real.neg_one_le_sin _, Real.sin_le_one _⟩)
          (Set.mem_Icc.2 ⟨by norm_num, by norm_num⟩) hs
      linarith
    have hB : Real.arcsin (1 / 3) ≤ 0.345 := by
      have h1 : (0.345 : ℝ) - 0.345 ^ 3 / 4 < Real.sin 0.345 :=
        Real.sin_gt_sub_cube (by norm_num) (by norm_num)
      have hs : (1 / 3 : ℝ) < Real.sin 0.345 := by
        nlinarith
      have h2 : Real.arcsin (1 / 3) ≤ Real.arcsin (Real.sin 0.345) :=
        Real.monotone_arcsin hs.le
      have h3 : Real.arcsin (Real.sin 0.345) = 0.345 :=
        Real.arcsin_sin (by linarith [Real.pi_gt_three])
          (by linarith [Real.pi_gt_three])
      linarith
    have harc_pos : 0 < Real.arcsin (1 / 3) := by linarith
    have hq1 : (57.1 : ℝ) < 180 / π := by
      rw [lt_div_iff hπ]
      nlinarith [Real.pi_lt_d2]
    have hq2 : (180 : ℝ) / π < 57.33 := by
      rw [div_lt_iff hπ]
      nlinarith [Real.pi_gt_d2]
    have hform : degrees (Real.arcsin (1 / 3)) =
        Real.arcsin (1 / 3) * (180 / π) := by
      rw [degrees]
      ring
    rw [e4, hform, abs_lt]
    constructor
    · have s1 : (1 / 3 : ℝ) * 57.1 < Real.arcsin (1 / 3) * 57.1 := by
        nlinarith
      have s2 : Real.arcsin (1 / 3) * 57.1 < Real.arcsin (1 / 3) * (180 / π) :=
        mul_lt_mul_of_pos_left hq1 harc_pos
      linarith
    · have s1 : Real.arcsin (1 / 3) * (180 / π) ≤ 0.345 * (180 / π) :=
        mul_le_mul_of_nonneg_right hB (by positivity)
      have s2 : (0.345 : ℝ) * (180 / π) < 0.345 * 57.33 :=
        mul_lt_mul_of_pos_left hq2 (by norm_num)
      linarith

/-- Witness for `c2_sample_snell` at `n_glass = 1.5`, `theta_incident = 30°`. -/
theorem c2_sample_snell_witness :
    |Real.sin (generateTaskData cfg0 1.5 30).theta_refracted_radians -
        Real.sin (generateTaskData cfg0 1.5 30).theta_incident_radians /
          1.5| ≤ 1e-6 ∧
    (generateTaskData cfg0 1.5 30).theta_refracted_radians ≤
      (generateTaskData cfg0 1.5 30).theta_incident_radians :=
  c2_sample_snell.1 1.5 30 (by norm_num) (by norm_num) (by norm_num)
    (by norm_num)

/-- C10: at incident angle 80° on the default 512×512 canvas, the incident-ray
start point `(center_x - (center_y - 50)·tan θ, 50)` has a negative
x-coordinate, i.e. lies outside the canvas, and both still renderers record
the incident segment from exactly that off-canvas start point, unclipped. -/
theorem c10_ray_start_off_canvas :
    rayStartX cfg0 (radians 80) < 0 ∧
    Prim.line (rayStartX cfg0 (radians 80), 50) (centerX cfg0, centerY cfg0)
        (0, 0, 255) 3 ∈
      renderInitialState cfg0 (generateTaskData cfg0 1.5 80) ∧
    Prim.line (rayStartX cfg0 (radians 80), 50) (centerX cfg0, centerY cfg0)
        (0, 0, 255) 3 ∈
      renderFinalState cfg0 (generateTaskData cfg0 1.5 80) := by
  have hrad : (generateTaskData cfg0 1.5 80).theta_incident_radians = radians 80 :=
    rfl
  refine ⟨?_, ?_, ?_⟩
  · have hcx : centerX cfg0 = 256 := by norm_num [centerX, cfg0]
    have hcy : centerY cfg0 = 256 := by norm_num [centerY, cfg0]
    rw [rayStartX, hcx, hcy]
    have h1 : (π / 3 : ℝ) < radians 80 := by
      rw [radians]
      nlinarith [Real.pi_pos]
    have h2 : radians 80 < π / 2 := by
      rw [radians]
      nlinarith [Real.pi_pos]
    have h3 : Real.tan (π / 3) < Real.tan (radians 80) :=
      Real.tan_lt_tan_of_nonneg_of_lt_pi_div_two (by positivity) h2 h1
    have h4 : (256 : ℝ) / 206 < Real.sqrt 3 :=
      Real.lt_sqrt_of_sq_lt (by norm_num)
    rw [Real.tan_pi_div_three] at h3
    nlinarith
  · simp [renderInitialState, drawArrow, hrad]
  · simp [renderFinalState, drawArrow, hrad]

end

end Refraction
